import Mathlib

/-!
Verification development for `langchain_community.graph_vectorstores.base`.

The Python module defines a hybrid vector-and-graph store:
* a `Node` data model carrying text, metadata and typed directional links;
* content adapters `_texts_to_nodes`, `_documents_to_nodes`, `nodes_to_documents`;
* the abstract `GraphVectorStore` contract with derived search operations
  (`similarity_search`, `max_marginal_relevance_search`, `search`) and the
  sync-to-async bridge (`aadd_nodes`, `atraversal_search`, ...);
* the `GraphVectorStoreRetriever` facade.

We embed the module shallowly: Python lazy iterables consumed with `list(...)`
become Lean `List`s, fallible generators become `Except String`, Python `dict`
metadata becomes an insertion-ordered association list with unique keys, and
Python numeric parameters become `Int` / `Rat` (the only float appearing in the
module, the `score_threshold` default `float("-inf")`, is modelled by a symbolic
`Score.negInf`; no float arithmetic occurs in the module).
-/

/-- Modelled from the spec: the `direction` of a `Link`
(`langchain_community.graph_vectorstores.links` is not part of this file;
spec section 3 gives exactly three variants). -/
inductive Direction where
  | incoming
  | outgoing
  | bidirectional
deriving DecidableEq

/-- Modelled from the spec: a `Link` is an immutable edge descriptor
`\x7bkind, direction, tag\x7d` (spec section 3; the defining module
`graph_vectorstores/links.py` is outside this file). -/
structure Link where
  kind : String
  direction : Direction
  tag : String
deriving DecidableEq

/-- Modelled from the spec: the reserved metadata key under which links travel
inside a metadata mapping (`METADATA_LINKS_KEY` of `graph_vectorstores/links.py`,
outside this file; the spec calls it "the reserved links key"). -/
def METADATA_LINKS_KEY : String := "links"

/-- A Python metadata value, as far as this module inspects one.  The module
only ever looks at the value stored under the reserved links key: it must be a
`list` of `Link` (`linkList`) or some other iterable of `Link` (`linkSeq`,
e.g. a tuple — `isinstance(links, list)` is false and `list(links)` coerces it).
Other values (`str`, `intv`) are opaque payloads for ordinary metadata keys. -/
inductive MVal where
  | linkList : List Link → MVal
  | linkSeq : List Link → MVal
  | str : String → MVal
  | intv : Int → MVal
deriving DecidableEq

/-- A Python `dict` used as metadata: insertion-ordered association list with
unique keys. -/
abbrev Meta := List (String × MVal)

/-- `Node` of the source module: id, text, metadata, links (same field order). -/
structure Node where
  id : Option String
  text : String
  metadata : Meta
  links : List Link
deriving DecidableEq

/-- Modelled from the spec: a "content record" — `langchain_core.documents.Document`
with `id`, `page_content` and `metadata` (the class itself is outside this file). -/
structure Document where
  id : Option String
  page_content : String
  metadata : Meta
deriving DecidableEq

/-- `metadata.pop(METADATA_LINKS_KEY, [])`, read side: the value currently
stored under the links key, if any. -/
def lookupLinks (md : Meta) : Option MVal :=
  (md.find? (fun kv => kv.1 == METADATA_LINKS_KEY)).map (fun kv => kv.2)

/-- `metadata.pop(METADATA_LINKS_KEY, [])`, removal side: the metadata with the
links key removed (performed on a `.copy()` in the source, so the caller's
mapping is untouched — in this pure embedding that is inherent). -/
def eraseLinksKey (md : Meta) : Meta :=
  md.filter (fun kv => kv.1 != METADATA_LINKS_KEY)

/-- `links = _metadata.pop(METADATA_LINKS_KEY, []); if not isinstance(links, list):
links = list(links)`.  An absent key defaults to `[]`; a `list` of links is kept;
another iterable of links is coerced with `list(...)`.  A non-link value cannot
produce a valid `Node` (either `list(...)` raises `TypeError` or pydantic rejects
the elements of `links: list[Link]`), so it is modelled as an error. -/
def coerceLinks : Option MVal → Except String (List Link)
  | none => .ok []
  | some (MVal.linkList ls) => .ok ls
  | some (MVal.linkSeq ls) => .ok ls
  | some (MVal.str _) => .error "TypeError: links value is not an iterable of Link"
  | some (MVal.intv _) => .error "TypeError: links value is not an iterable of Link"

/-- A metadata mapping whose links entry (if any) really holds links, so that
`coerceLinks` succeeds. -/
def wfMeta (md : Meta) : Bool :=
  match lookupLinks md with
  | none => true
  | some (MVal.linkList _) => true
  | some (MVal.linkSeq _) => true
  | some (MVal.str _) => false
  | some (MVal.intv _) => false

/-- The links list a well-formed metadata mapping yields. -/
def linksOfMeta (md : Meta) : List Link :=
  match lookupLinks md with
  | some (MVal.linkList ls) => ls
  | some (MVal.linkSeq ls) => ls
  | _ => []

/-- `iter(xs) if xs else None` for a possibly-absent Python list argument:
an absent (`None`) or empty (falsy) list yields no iterator. -/
def truthyIter : Option (List α) → Option (List α)
  | some (x :: xs) => some (x :: xs)
  | _ => none

/-- `next(it)` on a possibly-absent iterator: with no iterator the source takes
its default branch (`none` element); an exhausted iterator raises
`StopIteration`, which the source converts into the given `ValueError` text. -/
def nextOrErr : Option (List α) → String → Except String (Option α × Option (List α))
  | none, _ => .ok (none, none)
  | some [], e => .error e
  | some (x :: xs), _ => .ok (some x, some (xs))

/-- `it and _has_next(it)`: the iterator exists and has a further element. -/
def hasNextOpt : Option (List α) → Bool
  | some (_ :: _) => true
  | _ => false

/-- The loop body and trailing checks of `_texts_to_nodes`, operating on the
iterator states.  Per text: pull the next metadata (`ValueError` "texts iterable
longer than metadatas" on exhaustion), then the next id (likewise for ids), pop
the links key out of a copy of the metadata, coerce, and yield the `Node`.
After the loop, a non-exhausted ids iterator then a non-exhausted metadatas
iterator raise, in that order.  Consuming the generator with `list(...)`
surfaces the first raised error, which `Except` models. -/
def textsToNodesAux : List String → Option (List Meta) → Option (List String) →
    Except String (List Node)
  | [], mIt, iIt =>
    if hasNextOpt iIt then .error "ids iterable longer than texts"
    else if hasNextOpt mIt then .error "metadatas iterable longer than texts"
    else .ok []
  | text :: ts, mIt, iIt =>
    match nextOrErr mIt "texts iterable longer than metadatas" with
    | .error e => .error e
    | .ok (om, mIt') =>
      match nextOrErr iIt "texts iterable longer than ids" with
      | .error e => .error e
      | .ok (oi, iIt') =>
        match coerceLinks (lookupLinks (om.getD [])) with
        | .error e => .error e
        | .ok links =>
          match textsToNodesAux ts mIt' iIt' with
          | .error e => .error e
          | .ok rest =>
            .ok ({ id := oi, text := text,
                   metadata := eraseLinksKey (om.getD []), links := links } :: rest)

/-- `_texts_to_nodes(texts, metadatas, ids)`, consumed with `list(...)`.
`metadatas` and `ids` are optional Python lists; `iter(x) if x else None`
makes an absent or empty list contribute no iterator. -/
def textsToNodes (texts : List String) (metadatas : Option (List Meta))
    (ids : Option (List String)) : Except String (List Node) :=
  textsToNodesAux texts (truthyIter metadatas) (truthyIter ids)

/-- `_documents_to_nodes(documents)`, consumed with `list(...)`: for each
document, pop the links key out of a copy of its metadata, coerce, and yield a
`Node` with the document's id and page content. -/
def documentsToNodes : List Document → Except String (List Node)
  | [] => .ok []
  | d :: ds =>
    match coerceLinks (lookupLinks d.metadata) with
    | .error e => .error e
    | .ok links =>
      match documentsToNodes ds with
      | .error e => .error e
      | .ok rest =>
        .ok ({ id := d.id, text := d.page_content,
               metadata := eraseLinksKey d.metadata, links := links } :: rest)

/-- Python `dict` assignment `md[key] = v`: replaces the value in place if the
key is present (keeping its position), otherwise appends the pair at the end. -/
def setKey (md : Meta) (key : String) (v : MVal) : Meta :=
  if md.any (fun kv => kv.1 == key) then
    md.map (fun kv => if kv.1 == key then (key, v) else kv)
  else
    md ++ [(key, v)]

/-- `nodes_to_documents(nodes)`, consumed with `list(...)`: copy the node's
metadata, store under the links key the node's links each rebuilt field-by-field
(`Link(kind=link.kind, direction=link.direction, tag=link.tag)`), and yield a
`Document` with the node's id and text. -/
def nodesToDocuments : List Node → List Document
  | [] => []
  | n :: ns =>
    { id := n.id, page_content := n.text,
      metadata := setKey n.metadata METADATA_LINKS_KEY
        (MVal.linkList (n.links.map
          (fun l => { kind := l.kind, direction := l.direction, tag := l.tag }))) }
    :: nodesToDocuments ns

/-- A similarity score.  The module performs no float arithmetic; the only
float value it mentions is the `score_threshold` default `float("-inf")`,
modelled symbolically. -/
inductive Score where
  | negInf
  | val : Rat → Score
deriving DecidableEq

/-- The opaque metadata `filter` passed through to the backend. -/
abbrev StoreFilter := Meta

/-- The recognized keyword arguments a caller may pass through `**kwargs` /
`search_kwargs` to the search operations (spec section 6 lists exactly these
keys; backend-specific extra keys are opaque pass-throughs the modelled
operations never inspect).  `none` means "not supplied": the Python default of
the receiving signature applies. -/
structure Kwargs where
  k : Option Int := none
  depth : Option Int := none
  fetch_k : Option Int := none
  adjacent_k : Option Int := none
  lambda_mult : Option Rat := none
  score_threshold : Option Score := none
  initial_roots : Option (List String) := none
  filter : Option StoreFilter := none

/-- The abstract `GraphVectorStore` contract over a fixed deterministic
backend: its abstract methods (`add_nodes`, `traversal_search`,
`mmr_traversal_search`) and the one inherited `VectorStore` operation the
derived code calls (`similarity_search_with_relevance_scores`, defined in
`langchain_core` outside this file, hence also abstract here) become function
fields.  `traversal_search` takes query, k, depth, filter;
`mmr_traversal_search` takes query, initial_roots, k, depth, fetch_k,
adjacent_k, lambda_mult, score_threshold, filter — the signature order of the
source.  Lazy result iterables are modelled as the lists they enumerate. -/
structure GraphVectorStore where
  add_nodes : List Node → List String
  traversal_search : String → Int → Int → Option StoreFilter → List Document
  mmr_traversal_search : String → List String → Int → Int → Int → Int → Rat →
    Score → Option StoreFilter → List Document
  similarity_search_with_relevance_scores : String → Kwargs → List (Document × Rat)

/-- A call to the abstract `traversal_search` through its declared signature
`(query, *, k=4, depth=1, filter=None)`: omitted keywords take these defaults. -/
def GraphVectorStore.traversal_search_opt (gvs : GraphVectorStore) (query : String)
    (k depth : Option Int) (filter : Option StoreFilter) : List Document :=
  gvs.traversal_search query (k.getD 4) (depth.getD 1) filter

/-- A call to the abstract `mmr_traversal_search` through its declared signature
`(query, *, initial_roots=(), k=4, depth=2, fetch_k=100, adjacent_k=10,
lambda_mult=0.5, score_threshold=float("-inf"), filter=None)`. -/
def GraphVectorStore.mmr_traversal_search_opt (gvs : GraphVectorStore) (query : String)
    (initial_roots : Option (List String)) (k depth fetch_k adjacent_k : Option Int)
    (lambda_mult : Option Rat) (score_threshold : Option Score)
    (filter : Option StoreFilter) : List Document :=
  gvs.mmr_traversal_search query (initial_roots.getD []) (k.getD 4) (depth.getD 2)
    (fetch_k.getD 100) (adjacent_k.getD 10) (lambda_mult.getD (1/2))
    (score_threshold.getD Score.negInf) filter

/-- `similarity_search(self, query, k=4, **kwargs)`:
`return list(self.traversal_search(query, k=k, depth=0))`. -/
def GraphVectorStore.similarity_search (gvs : GraphVectorStore) (query : String)
    (k : Option Int) : List Document :=
  gvs.traversal_search_opt query (some (k.getD 4)) (some 0) none

/-- The warning text logged by `max_marginal_relevance_search` when called with
`depth > 0`. -/
def mmrDepthWarning : String :=
  "\x27mmr\x27 search started with depth > 0. " ++
  "Maybe you meant to do a \x27mmr_traversal\x27 search?"

/-- `max_marginal_relevance_search(self, query, k=4, fetch_k=20, lambda_mult=0.5,
**kwargs)`: if `kwargs.get("depth", 0) > 0`, log a warning (first component);
in every case return
`list(self.mmr_traversal_search(query, k=k, fetch_k=fetch_k,
lambda_mult=lambda_mult, depth=0))` (second component).  The call is total: an
explicit `depth` keyword never raises. -/
def GraphVectorStore.max_marginal_relevance_search (gvs : GraphVectorStore)
    (query : String) (k fetch_k : Option Int) (lambda_mult : Option Rat)
    (depthKwarg : Option Int) : List String × List Document :=
  (if 0 < depthKwarg.getD 0 then [mmrDepthWarning] else [],
   gvs.mmr_traversal_search_opt query none (some (k.getD 4)) (some 0)
     (some (fetch_k.getD 20)) none (some (lambda_mult.getD (1/2))) none none)

/-- The error text raised by `search` / `asearch` for an unknown tag: it
enumerates exactly the five allowed search types. -/
def searchTypeErrorMsg (search_type : String) : String :=
  "search_type of " ++ search_type ++ " not allowed. Expected " ++
  "search_type to be \x27similarity\x27, \x27similarity_score_threshold\x27, " ++
  "\x27mmr\x27, \x27traversal\x27, or \x27mmr_traversal\x27."

/-- `search(self, query, search_type, **kwargs)`: dispatch on the tag to
`similarity_search`, `similarity_search_with_relevance_scores` (keeping only
the documents), `max_marginal_relevance_search`, `traversal_search` or
`mmr_traversal_search`, else raise `ValueError` with `searchTypeErrorMsg`.
The first component of a successful result carries the warnings logged along
the way (only the mmr branch can log). -/
def GraphVectorStore.search (gvs : GraphVectorStore) (query search_type : String)
    (kw : Kwargs) : Except String (List String × List Document) :=
  if search_type = "similarity" then
    .ok ([], gvs.similarity_search query kw.k)
  else if search_type = "similarity_score_threshold" then
    .ok ([], (gvs.similarity_search_with_relevance_scores query kw).map Prod.fst)
  else if search_type = "mmr" then
    .ok (gvs.max_marginal_relevance_search query kw.k kw.fetch_k kw.lambda_mult kw.depth)
  else if search_type = "traversal" then
    .ok ([], gvs.traversal_search_opt query kw.k kw.depth kw.filter)
  else if search_type = "mmr_traversal" then
    .ok ([], gvs.mmr_traversal_search_opt query kw.initial_roots kw.k kw.depth
      kw.fetch_k kw.adjacent_k kw.lambda_mult kw.score_threshold kw.filter)
  else
    .error (searchTypeErrorMsg search_type)

/-- The sync-to-async bridge loop shared by `aadd_nodes`, `atraversal_search`
and `ammr_traversal_search`: obtain the underlying iterator on a worker
executor, then repeatedly `next(iterator, done)` on a worker executor, yielding
every element to the async consumer in production order and stopping exactly at
the `done` sentinel.  With a fixed deterministic backend, the sequence of
yielded elements is what this function computes. -/
def bridgePump : List α → List α
  | [] => []
  | x :: xs => x :: bridgePump xs

/-- `aadd_nodes`: the bridge applied to `add_nodes`. -/
def GraphVectorStore.aadd_nodes (gvs : GraphVectorStore) (nodes : List Node) :
    List String :=
  bridgePump (gvs.add_nodes nodes)

/-- `atraversal_search(self, query, *, k=4, depth=1, filter=None, **kwargs)`:
the bridge applied to `self.traversal_search(query, k=k, depth=depth,
filter=filter)`. -/
def GraphVectorStore.atraversal_search (gvs : GraphVectorStore) (query : String)
    (k depth : Option Int) (filter : Option StoreFilter) : List Document :=
  bridgePump (gvs.traversal_search_opt query k depth filter)

/-- `ammr_traversal_search`: the bridge applied to `self.mmr_traversal_search`
with every keyword forwarded. -/
def GraphVectorStore.ammr_traversal_search (gvs : GraphVectorStore) (query : String)
    (initial_roots : Option (List String)) (k depth fetch_k adjacent_k : Option Int)
    (lambda_mult : Option Rat) (score_threshold : Option Score)
    (filter : Option StoreFilter) : List Document :=
  bridgePump (gvs.mmr_traversal_search_opt query initial_roots k depth fetch_k
    adjacent_k lambda_mult score_threshold filter)

/-- `asimilarity_search(self, query, k=4, **kwargs)`:
`[doc async for doc in self.atraversal_search(query, k=k, depth=0)]`. -/
def GraphVectorStore.asimilarity_search (gvs : GraphVectorStore) (query : String)
    (k : Option Int) : List Document :=
  gvs.atraversal_search query (some (k.getD 4)) (some 0) none

/-- Modelled from the spec: `amax_marginal_relevance_search` is inherited from
the `VectorStore` base class in `langchain_core` (outside this file); per the
sync-to-async bridge contract (spec section 4.4) it runs the synchronous
`max_marginal_relevance_search` on a worker executor and returns its result. -/
def GraphVectorStore.amax_marginal_relevance_search (gvs : GraphVectorStore)
    (query : String) (k fetch_k : Option Int) (lambda_mult : Option Rat)
    (depthKwarg : Option Int) : List String × List Document :=
  gvs.max_marginal_relevance_search query k fetch_k lambda_mult depthKwarg

/-- Modelled from the spec: `asimilarity_search_with_relevance_scores` is
inherited from the `VectorStore` base class in `langchain_core` (outside this
file); per the bridge contract (spec section 4.4) it returns the synchronous
result. -/
def GraphVectorStore.asimilarity_search_with_relevance_scores
    (gvs : GraphVectorStore) (query : String) (kw : Kwargs) :
    List (Document × Rat) :=
  gvs.similarity_search_with_relevance_scores query kw

/-- `asearch(self, query, search_type, **kwargs)`: the same dispatch as
`search`, through the asynchronous variants. -/
def GraphVectorStore.asearch (gvs : GraphVectorStore) (query search_type : String)
    (kw : Kwargs) : Except String (List String × List Document) :=
  if search_type = "similarity" then
    .ok ([], gvs.asimilarity_search query kw.k)
  else if search_type = "similarity_score_threshold" then
    .ok ([], (gvs.asimilarity_search_with_relevance_scores query kw).map Prod.fst)
  else if search_type = "mmr" then
    .ok (gvs.amax_marginal_relevance_search query kw.k kw.fetch_k kw.lambda_mult kw.depth)
  else if search_type = "traversal" then
    .ok ([], gvs.atraversal_search query kw.k kw.depth kw.filter)
  else if search_type = "mmr_traversal" then
    .ok ([], gvs.ammr_traversal_search query kw.initial_roots kw.k kw.depth
      kw.fetch_k kw.adjacent_k kw.lambda_mult kw.score_threshold kw.filter)
  else
    .error (searchTypeErrorMsg search_type)

/-- `GraphVectorStoreRetriever`: holds the store, the `search_type` tag
(default "traversal") and the stored `search_kwargs`.  The generic behavior of
the `VectorStoreRetriever` base class (`langchain_core`, outside this file) that
the `else` branches delegate to is abstract here, as its sync and async
document-retrieval functions. -/
structure GraphVectorStoreRetriever where
  vectorstore : GraphVectorStore
  search_type : String := "traversal"
  search_kwargs : Kwargs := {}
  baseGetRelevantDocuments : String → List Document
  baseAGetRelevantDocuments : String → List Document

/-- `_get_relevant_documents`: route "traversal" to
`graph_vectorstore.traversal_search(query, **search_kwargs)` and
"mmr_traversal" to `graph_vectorstore.mmr_traversal_search(query,
**search_kwargs)`; any other tag delegates to the base class. -/
def GraphVectorStoreRetriever.getRelevantDocuments
    (r : GraphVectorStoreRetriever) (query : String) : List Document :=
  if r.search_type = "traversal" then
    r.vectorstore.traversal_search_opt query r.search_kwargs.k r.search_kwargs.depth
      r.search_kwargs.filter
  else if r.search_type = "mmr_traversal" then
    r.vectorstore.mmr_traversal_search_opt query r.search_kwargs.initial_roots
      r.search_kwargs.k r.search_kwargs.depth r.search_kwargs.fetch_k
      r.search_kwargs.adjacent_k r.search_kwargs.lambda_mult
      r.search_kwargs.score_threshold r.search_kwargs.filter
  else r.baseGetRelevantDocuments query

/-- `_aget_relevant_documents`: the same routing through `atraversal_search` /
`ammr_traversal_search`, else the base class's async behavior. -/
def GraphVectorStoreRetriever.agetRelevantDocuments
    (r : GraphVectorStoreRetriever) (query : String) : List Document :=
  if r.search_type = "traversal" then
    r.vectorstore.atraversal_search query r.search_kwargs.k r.search_kwargs.depth
      r.search_kwargs.filter
  else if r.search_type = "mmr_traversal" then
    r.vectorstore.ammr_traversal_search query r.search_kwargs.initial_roots
      r.search_kwargs.k r.search_kwargs.depth r.search_kwargs.fetch_k
      r.search_kwargs.adjacent_k r.search_kwargs.lambda_mult
      r.search_kwargs.score_threshold r.search_kwargs.filter
  else r.baseAGetRelevantDocuments query

/-- A sample link, used to instantiate theorems at concrete inputs. -/
def sampleLink : Link :=
  { kind := "hyperlink", direction := Direction.outgoing, tag := "https://u" }

/-- A sample document, used to instantiate theorems at concrete inputs. -/
def sampleDoc : Document :=
  { id := some "d1", page_content := "some text", metadata := [] }

/-- A sample concrete deterministic backend, used to instantiate theorems at
concrete inputs. -/
def sampleGVS : GraphVectorStore :=
  { add_nodes := fun ns => ns.map (fun n => n.id.getD "generated")
    traversal_search := fun _ _ _ _ => [sampleDoc]
    mmr_traversal_search := fun _ _ _ _ _ _ _ _ _ => [sampleDoc]
    similarity_search_with_relevance_scores := fun _ _ => [(sampleDoc, 1)] }

/-- A sample generic base-retriever behavior, used to instantiate theorems. -/
def sampleBase : String → List Document := fun _ => [sampleDoc]

/-- The bridge loop yields exactly the elements of the underlying sequence, in
order, and stops exactly when it is exhausted. -/
theorem bridgePump_eq (l : List α) : bridgePump l = l := by
  induction l with
  | nil => rfl
  | cons x xs ih => simp [bridgePump, ih]

/-- C1: For every `GraphVectorStore` over a fixed deterministic backend, each
asynchronous variant (`aadd_nodes`, `atraversal_search`,
`ammr_traversal_search`, `asimilarity_search`, `asearch`) yields exactly the
same elements in exactly the same order as its synchronous counterpart, and the
asynchronous sequence terminates exactly when the synchronous sequence is
exhausted (equality of the produced lists). -/
theorem async_variants_match_sync (gvs : GraphVectorStore) (nodes : List Node)
    (query : String) (k depth : Option Int) (filter : Option StoreFilter)
    (roots : Option (List String)) (k2 depth2 fetch_k adjacent_k : Option Int)
    (lambda_mult : Option Rat) (score_threshold : Option Score)
    (filter2 : Option StoreFilter) (k3 : Option Int)
    (search_type : String) (kw : Kwargs) :
    gvs.aadd_nodes nodes = gvs.add_nodes nodes
    ∧ gvs.atraversal_search query k depth filter
        = gvs.traversal_search_opt query k depth filter
    ∧ gvs.ammr_traversal_search query roots k2 depth2 fetch_k adjacent_k
          lambda_mult score_threshold filter2
        = gvs.mmr_traversal_search_opt query roots k2 depth2 fetch_k adjacent_k
          lambda_mult score_threshold filter2
    ∧ gvs.asimilarity_search query k3 = gvs.similarity_search query k3
    ∧ gvs.asearch query search_type kw = gvs.search query search_type kw := by
  refine ⟨bridgePump_eq _, bridgePump_eq _, bridgePump_eq _, bridgePump_eq _, ?_⟩
  simp only [GraphVectorStore.asearch, GraphVectorStore.search,
    GraphVectorStore.asimilarity_search, GraphVectorStore.similarity_search,
    GraphVectorStore.atraversal_search, GraphVectorStore.ammr_traversal_search,
    GraphVectorStore.amax_marginal_relevance_search,
    GraphVectorStore.asimilarity_search_with_relevance_scores,
    bridgePump_eq]

/-- C5: `similarity_search(q, k)` is exactly `traversal_search(q, k=k, depth=0)`
collected into a list, and `max_marginal_relevance_search(q, k, fetch_k,
lambda_mult)` is exactly `mmr_traversal_search` with those arguments and
`depth=0` collected into a list — neither is an independent algorithm. -/
theorem depth_zero_specializations (gvs : GraphVectorStore) (query : String)
    (k fetch_k : Int) (lambda_mult : Rat) (depthKwarg : Option Int) :
    gvs.similarity_search query (some k)
        = gvs.traversal_search_opt query (some k) (some 0) none
    ∧ (gvs.max_marginal_relevance_search query (some k) (some fetch_k)
          (some lambda_mult) depthKwarg).2
        = gvs.mmr_traversal_search_opt query none (some k) (some 0) (some fetch_k)
          none (some lambda_mult) none none :=
  ⟨rfl, rfl⟩

/-- C6: calling `max_marginal_relevance_search` with an explicit `depth > 0`
keyword does not fail (the modelled call is total): it logs the warning and
proceeds with depth 0, returning the same documents as the call without the
`depth` argument. -/
theorem mmr_depth_kwarg_warns (gvs : GraphVectorStore) (query : String)
    (k fetch_k : Option Int) (lambda_mult : Option Rat) (d : Int) (hd : 0 < d) :
    (gvs.max_marginal_relevance_search query k fetch_k lambda_mult (some d)).1
        = [mmrDepthWarning]
    ∧ (gvs.max_marginal_relevance_search query k fetch_k lambda_mult (some d)).2
        = (gvs.max_marginal_relevance_search query k fetch_k lambda_mult none).2 := by
  constructor
  · simp [GraphVectorStore.max_marginal_relevance_search, Option.getD, hd]
  · rfl

/-- Witness for C6 at a concrete store and `depth = 1`. -/
theorem mmr_depth_kwarg_warns_witness :
    (sampleGVS.max_marginal_relevance_search "q" none none none (some 1)).1
        = [mmrDepthWarning]
    ∧ (sampleGVS.max_marginal_relevance_search "q" none none none (some 1)).2
        = (sampleGVS.max_marginal_relevance_search "q" none none none none).2 :=
  mmr_depth_kwarg_warns sampleGVS "q" none none none 1 (by decide)

/-- C9: the default parameter values of the public search operations:
`k = 4` throughout; `depth = 1` for `traversal_search` and `depth = 2` for
`mmr_traversal_search`; `fetch_k = 100` for `mmr_traversal_search` and
`fetch_k = 20` for plain `max_marginal_relevance_search`; `adjacent_k = 10`;
`lambda_mult = 1/2` (Python `0.5`); `score_threshold` negative infinity. -/
theorem default_search_parameters (gvs : GraphVectorStore) (query : String) :
    gvs.traversal_search_opt query none none none
        = gvs.traversal_search query 4 1 none
    ∧ gvs.mmr_traversal_search_opt query none none none none none none none none
        = gvs.mmr_traversal_search query [] 4 2 100 10 (1/2) Score.negInf none
    ∧ gvs.similarity_search query none = gvs.traversal_search query 4 0 none
    ∧ gvs.max_marginal_relevance_search query none none none none
        = ([], gvs.mmr_traversal_search query [] 4 0 20 10 (1/2) Score.negInf none) :=
  ⟨rfl, rfl, rfl, rfl⟩

/-- C7: `search` (and `asearch`) dispatches each of the five allowed tags to
the matching operation, and any other tag raises an invalid-argument error
whose message enumerates exactly the five allowed tags ("similarity",
"similarity_score_threshold", "mmr", "traversal", "mmr_traversal" — spelled out
in `searchTypeErrorMsg`). -/
theorem search_dispatch (gvs : GraphVectorStore) (query : String) (kw : Kwargs)
    (search_type : String)
    (h : search_type ∉ (["similarity", "similarity_score_threshold", "mmr",
      "traversal", "mmr_traversal"] : List String)) :
    gvs.search query "similarity" kw = .ok ([], gvs.similarity_search query kw.k)
    ∧ gvs.search query "similarity_score_threshold" kw
        = .ok ([], (gvs.similarity_search_with_relevance_scores query kw).map Prod.fst)
    ∧ gvs.search query "mmr" kw
        = .ok (gvs.max_marginal_relevance_search query kw.k kw.fetch_k
            kw.lambda_mult kw.depth)
    ∧ gvs.search query "traversal" kw
        = .ok ([], gvs.traversal_search_opt query kw.k kw.depth kw.filter)
    ∧ gvs.search query "mmr_traversal" kw
        = .ok ([], gvs.mmr_traversal_search_opt query kw.initial_roots kw.k kw.depth
            kw.fetch_k kw.adjacent_k kw.lambda_mult kw.score_threshold kw.filter)
    ∧ gvs.asearch query "similarity" kw = .ok ([], gvs.asimilarity_search query kw.k)
    ∧ gvs.asearch query "similarity_score_threshold" kw
        = .ok ([], (gvs.asimilarity_search_with_relevance_scores query kw).map Prod.fst)
    ∧ gvs.asearch query "mmr" kw
        = .ok (gvs.amax_marginal_relevance_search query kw.k kw.fetch_k
            kw.lambda_mult kw.depth)
    ∧ gvs.asearch query "traversal" kw
        = .ok ([], gvs.atraversal_search query kw.k kw.depth kw.filter)
    ∧ gvs.asearch query "mmr_traversal" kw
        = .ok ([], gvs.ammr_traversal_search query kw.initial_roots kw.k kw.depth
            kw.fetch_k kw.adjacent_k kw.lambda_mult kw.score_threshold kw.filter)
    ∧ gvs.search query search_type kw = .error (searchTypeErrorMsg search_type)
    ∧ gvs.asearch query search_type kw = .error (searchTypeErrorMsg search_type) := by
  simp only [List.mem_cons, List.mem_singleton, not_or] at h
  obtain ⟨h1, h2, h3, h4, h5, -⟩ := h
  refine ⟨rfl, rfl, rfl, rfl, rfl, rfl, rfl, rfl, rfl, rfl, ?_, ?_⟩ <;>
    simp [GraphVectorStore.search, GraphVectorStore.asearch, h1, h2, h3, h4, h5]

/-- Witness for C7 at the concrete store and the tag "bogus". -/
theorem search_dispatch_witness :
    ("bogus" ∉ (["similarity", "similarity_score_threshold", "mmr",
      "traversal", "mmr_traversal"] : List String))
    ∧ sampleGVS.search "q" "bogus" {} = .error (searchTypeErrorMsg "bogus")
    ∧ sampleGVS.asearch "q" "bogus" {} = .error (searchTypeErrorMsg "bogus") :=
  ⟨by decide,
   (search_dispatch sampleGVS "q" {} "bogus" (by decide)).2.2.2.2.2.2.2.2.2.2.1,
   (search_dispatch sampleGVS "q" {} "bogus" (by decide)).2.2.2.2.2.2.2.2.2.2.2⟩

/-- C8: the retriever's document-retrieval operation routes tag "traversal"
directly to the store's `traversal_search` and tag "mmr_traversal" directly to
`mmr_traversal_search`, passing the stored `search_kwargs`; every other tag
delegates to the generic vector-store retriever base behavior.  The same
routing holds for the asynchronous variant (through `atraversal_search` /
`ammr_traversal_search`, which equal the synchronous searches). -/
theorem retriever_routing (gvs : GraphVectorStore) (kw : Kwargs)
    (base baseA : String → List Document) (search_type query : String)
    (h1 : search_type ≠ "traversal") (h2 : search_type ≠ "mmr_traversal") :
    GraphVectorStoreRetriever.getRelevantDocuments
        ⟨gvs, "traversal", kw, base, baseA⟩ query
      = gvs.traversal_search_opt query kw.k kw.depth kw.filter
    ∧ GraphVectorStoreRetriever.agetRelevantDocuments
        ⟨gvs, "traversal", kw, base, baseA⟩ query
      = gvs.atraversal_search query kw.k kw.depth kw.filter
    ∧ GraphVectorStoreRetriever.getRelevantDocuments
        ⟨gvs, "mmr_traversal", kw, base, baseA⟩ query
      = gvs.mmr_traversal_search_opt query kw.initial_roots kw.k kw.depth
          kw.fetch_k kw.adjacent_k kw.lambda_mult kw.score_threshold kw.filter
    ∧ GraphVectorStoreRetriever.agetRelevantDocuments
        ⟨gvs, "mmr_traversal", kw, base, baseA⟩ query
      = gvs.ammr_traversal_search query kw.initial_roots kw.k kw.depth
          kw.fetch_k kw.adjacent_k kw.lambda_mult kw.score_threshold kw.filter
    ∧ GraphVectorStoreRetriever.getRelevantDocuments
        ⟨gvs, search_type, kw, base, baseA⟩ query = base query
    ∧ GraphVectorStoreRetriever.agetRelevantDocuments
        ⟨gvs, search_type, kw, base, baseA⟩ query = baseA query := by
  refine ⟨rfl, rfl, rfl, rfl, ?_, ?_⟩ <;>
    simp [GraphVectorStoreRetriever.getRelevantDocuments,
      GraphVectorStoreRetriever.agetRelevantDocuments, h1, h2]

/-- Witness for C8 at the concrete store, with the generic tag "similarity". -/
theorem retriever_routing_witness :
    GraphVectorStoreRetriever.getRelevantDocuments
        ⟨sampleGVS, "traversal", {}, sampleBase, sampleBase⟩ "q"
      = sampleGVS.traversal_search_opt "q" none none none
    ∧ GraphVectorStoreRetriever.getRelevantDocuments
        ⟨sampleGVS, "similarity", {}, sampleBase, sampleBase⟩ "q" = sampleBase "q"
    ∧ GraphVectorStoreRetriever.agetRelevantDocuments
        ⟨sampleGVS, "similarity", {}, sampleBase, sampleBase⟩ "q" = sampleBase "q" :=
  ⟨(retriever_routing sampleGVS {} sampleBase sampleBase "similarity" "q"
      (by decide) (by decide)).1,
   (retriever_routing sampleGVS {} sampleBase sampleBase "similarity" "q"
      (by decide) (by decide)).2.2.2.2.1,
   (retriever_routing sampleGVS {} sampleBase sampleBase "similarity" "q"
      (by decide) (by decide)).2.2.2.2.2⟩

/-- On well-formed metadata the links coercion succeeds with `linksOfMeta`. -/
theorem coerceLinks_of_wfMeta (md : Meta) (h : wfMeta md = true) :
    coerceLinks (lookupLinks md) = .ok (linksOfMeta md) := by
  unfold wfMeta at h
  unfold linksOfMeta
  cases hl : lookupLinks md with
  | none => simp [coerceLinks]
  | some v => cases v <;> simp_all [coerceLinks]

/-- Popping the links key really removes it: no links key remains. -/
theorem lookupLinks_eraseLinksKey (md : Meta) :
    lookupLinks (eraseLinksKey md) = none := by
  have h : (eraseLinksKey md).find? (fun kv => kv.1 == METADATA_LINKS_KEY) = none := by
    rw [List.find?_eq_none]
    intro x hx
    have hx2 := (List.mem_filter.mp hx).2
    simpa using hx2
  simp [lookupLinks, h]

/-- The per-text output `_texts_to_nodes` produces from three equal-length
sequences: one `Node` per text, in input order, id from `ids`, metadata the
corresponding mapping minus the links key, links the mapping's links entry
(or empty when absent). -/
def zipNodes : List String → List Meta → List String → List Node
  | t :: ts, m :: ms, i :: ids =>
    { id := some i, text := t, metadata := eraseLinksKey m,
      links := linksOfMeta m } :: zipNodes ts ms ids
  | _, _, _ => []

/-- Loop-level form of C3, by induction on the texts. -/
theorem textsToNodesAux_eq_lengths (texts : List String) :
    ∀ (ms : List Meta) (ids : List String), ms.length = texts.length →
    ids.length = texts.length → (∀ m ∈ ms, wfMeta m = true) →
    textsToNodesAux texts (some ms) (some ids) = .ok (zipNodes texts ms ids) := by
  induction texts with
  | nil =>
    intro ms ids hm hi _
    rw [List.length_nil, List.length_eq_zero] at hm hi
    subst hm; subst hi
    rfl
  | cons t ts ih =>
    intro ms ids hm hi hwf
    cases ms with
    | nil => simp at hm
    | cons m ms' =>
      cases ids with
      | nil => simp at hi
      | cons i ids' =>
        simp only [List.length_cons, Nat.succ.injEq] at hm hi
        have hwfm : wfMeta m = true := hwf m (List.mem_cons_self m ms')
        have hwf' : ∀ x ∈ ms', wfMeta x = true :=
          fun x hx => hwf x (List.mem_cons_of_mem m hx)
        simp only [textsToNodesAux, nextOrErr, Option.getD,
          coerceLinks_of_wfMeta m hwfm, ih ms' ids' hm hi hwf', zipNodes]

/-- C3: for equal-length sequences of texts, metadatas and ids, the adapter
produces exactly one `Node` per text in input order (the `zipNodes` list),
where each node's `links` equals the links entry of the corresponding metadata
(or the empty list if absent), and the reserved links key is absent from every
node's metadata.  The caller-supplied metadata mappings are not mutated: the
source pops the key from a `.copy()`, which the pure embedding reflects (the
input `ms` is untouched by construction). -/
theorem texts_to_nodes_equal_lengths (texts : List String) (ms : List Meta)
    (ids : List String) (hm : ms.length = texts.length)
    (hi : ids.length = texts.length) (hwf : ∀ m ∈ ms, wfMeta m = true) :
    textsToNodes texts (some ms) (some ids) = .ok (zipNodes texts ms ids)
    ∧ (zipNodes texts ms ids).length = texts.length
    ∧ ∀ n ∈ zipNodes texts ms ids, lookupLinks n.metadata = none := by
  refine ⟨?_, ?_, ?_⟩
  · cases texts with
    | nil =>
      rw [List.length_nil, List.length_eq_zero] at hm hi
      subst hm; subst hi
      rfl
    | cons t ts =>
      cases ms with
      | nil => simp at hm
      | cons m ms' =>
        cases ids with
        | nil => simp at hi
        | cons i ids' =>
          exact textsToNodesAux_eq_lengths (t :: ts) (m :: ms') (i :: ids') hm hi hwf
  · clear hwf
    induction texts generalizing ms ids with
    | nil => simp [zipNodes]
    | cons t ts ih =>
      cases ms with
      | nil => simp at hm
      | cons m ms' =>
        cases ids with
        | nil => simp at hi
        | cons i ids' =>
          simp only [List.length_cons, Nat.succ.injEq] at hm hi
          simp [zipNodes, ih ms' ids' hm hi]
  · clear hwf hm hi
    induction texts generalizing ms ids with
    | nil => intro n hn; simp [zipNodes] at hn
    | cons t ts ih =>
      intro n hn
      cases ms with
      | nil => simp [zipNodes] at hn
      | cons m ms' =>
        cases ids with
        | nil => simp [zipNodes] at hn
        | cons i ids' =>
          simp only [zipNodes, List.mem_cons] at hn
          rcases hn with rfl | hn
          · exact lookupLinks_eraseLinksKey m
          · exact ih ms' ids' n hn

/-- Witness for C3 at concrete equal-length inputs whose first metadata holds a
links entry and a surviving ordinary key. -/
theorem texts_to_nodes_equal_lengths_witness :
    textsToNodes ["ta", "tb"]
        (some [[("links", MVal.linkList [sampleLink]), ("x", MVal.intv 7)], []])
        (some ["a", "b"])
      = .ok (zipNodes ["ta", "tb"]
          [[("links", MVal.linkList [sampleLink]), ("x", MVal.intv 7)], []]
          ["a", "b"]) :=
  (texts_to_nodes_equal_lengths ["ta", "tb"]
    [[("links", MVal.linkList [sampleLink]), ("x", MVal.intv 7)], []]
    ["a", "b"] (by decide) (by decide) (by decide)).1

/-- With neither a metadatas nor an ids iterator, `_texts_to_nodes` yields one
`Node` per text with empty metadata, empty links and no id. -/
theorem textsToNodesAux_none_none (texts : List String) :
    textsToNodesAux texts none none
      = .ok (texts.map (fun t =>
          { id := none, text := t, metadata := [], links := [] })) := by
  induction texts with
  | nil => rfl
  | cons t ts ih =>
    simp [textsToNodesAux, nextOrErr, coerceLinks, lookupLinks, eraseLinksKey, ih]

/-- C10: an empty (but present) metadatas or ids list is treated exactly like
an absent one — `iter(x) if x else None` sees the empty list as falsy — so for
any texts the adapter raises no arity-mismatch error: every produced node gets
empty metadata and a `none` id instead of a "texts iterable longer than"
validation error. -/
theorem texts_to_nodes_empty_like_absent (texts : List String)
    (oms : Option (List Meta)) (oids : Option (List String)) :
    textsToNodes texts (some []) oids = textsToNodes texts none oids
    ∧ textsToNodes texts oms (some []) = textsToNodes texts oms none
    ∧ textsToNodes texts (some []) (some [])
        = .ok (texts.map (fun t =>
            { id := none, text := t, metadata := [], links := [] })) :=
  ⟨rfl, rfl, textsToNodesAux_none_none texts⟩

/-- A non-empty Python list is truthy: it does produce an iterator. -/
theorem truthyIter_of_ne_nil (xs : List α) (h : xs ≠ []) :
    truthyIter (some xs) = some xs := by
  cases xs with
  | nil => exact absurd rfl h
  | cons x xs' => rfl

/-- Loop-level form of the amended C2: with both iterators present, any length
disagreement with the texts makes `_texts_to_nodes` raise a `ValueError`, and
the message correctly names a sequence that overran. -/
theorem textsToNodesAux_mismatch (texts : List String) :
    ∀ (ms : List Meta) (ids : List String),
    (∀ m ∈ ms, wfMeta m = true) →
    (ms.length ≠ texts.length ∨ ids.length ≠ texts.length) →
    ∃ e, textsToNodesAux texts (some ms) (some ids) = .error e ∧
      ((e = "texts iterable longer than metadatas" ∧ ms.length < texts.length)
       ∨ (e = "texts iterable longer than ids" ∧ ids.length < texts.length)
       ∨ (e = "ids iterable longer than texts" ∧ texts.length < ids.length)
       ∨ (e = "metadatas iterable longer than texts" ∧ texts.length < ms.length)) := by
  induction texts with
  | nil =>
    intro ms ids _ hmm
    cases ids with
    | cons i ids' =>
      refine ⟨"ids iterable longer than texts", by simp [textsToNodesAux, hasNextOpt], ?_⟩
      exact Or.inr (Or.inr (Or.inl ⟨rfl, by simp⟩))
    | nil =>
      have hms : ms.length ≠ 0 := by
        rcases hmm with h | h
        · simpa using h
        · simp at h
      cases ms with
      | nil => simp at hms
      | cons m ms' =>
        refine ⟨"metadatas iterable longer than texts",
          by simp [textsToNodesAux, hasNextOpt], ?_⟩
        exact Or.inr (Or.inr (Or.inr ⟨rfl, by simp⟩))
  | cons t ts ih =>
    intro ms ids hwf hmm
    cases ms with
    | nil =>
      refine ⟨"texts iterable longer than metadatas",
        by simp [textsToNodesAux, nextOrErr], ?_⟩
      exact Or.inl ⟨rfl, by simp⟩
    | cons m ms' =>
      have hwfm : wfMeta m = true := hwf m (List.mem_cons_self m ms')
      have hwf' : ∀ x ∈ ms', wfMeta x = true :=
        fun x hx => hwf x (List.mem_cons_of_mem m hx)
      cases ids with
      | nil =>
        refine ⟨"texts iterable longer than ids", ?_, ?_⟩
        · simp [textsToNodesAux, nextOrErr, coerceLinks_of_wfMeta m hwfm]
        · exact Or.inr (Or.inl ⟨rfl, by simp⟩)
      | cons i ids' =>
        have hmm' : ms'.length ≠ ts.length ∨ ids'.length ≠ ts.length := by
          rcases hmm with h | h
          · exact Or.inl (by simpa using h)
          · exact Or.inr (by simpa using h)
        obtain ⟨e, heq, hcase⟩ := ih ms' ids' hwf' hmm'
        refine ⟨e, ?_, ?_⟩
        · simp [textsToNodesAux, nextOrErr, coerceLinks_of_wfMeta m hwfm, heq]
        · rcases hcase with ⟨he, hlen⟩ | ⟨he, hlen⟩ | ⟨he, hlen⟩ | ⟨he, hlen⟩
          · exact Or.inl ⟨he, by simpa using Nat.succ_lt_succ hlen⟩
          · exact Or.inr (Or.inl ⟨he, by simpa using Nat.succ_lt_succ hlen⟩)
          · exact Or.inr (Or.inr (Or.inl ⟨he, by simpa using Nat.succ_lt_succ hlen⟩))
          · exact Or.inr (Or.inr (Or.inr ⟨he, by simpa using Nat.succ_lt_succ hlen⟩))

/-- C2, amended: for non-empty metadatas and ids sequences (an empty sequence
is falsy and is treated as absent — see the counterexample and C10), any length
disagreement with texts makes the conversion fail with a `ValueError` whose
message names a sequence that overran, and no silent truncation occurs. -/
theorem texts_to_nodes_length_mismatch (texts : List String) (ms : List Meta)
    (ids : List String) (hms : ms ≠ []) (hids : ids ≠ [])
    (hwf : ∀ m ∈ ms, wfMeta m = true)
    (hmm : ms.length ≠ texts.length ∨ ids.length ≠ texts.length) :
    ∃ e, textsToNodes texts (some ms) (some ids) = .error e ∧
      ((e = "texts iterable longer than metadatas" ∧ ms.length < texts.length)
       ∨ (e = "texts iterable longer than ids" ∧ ids.length < texts.length)
       ∨ (e = "ids iterable longer than texts" ∧ texts.length < ids.length)
       ∨ (e = "metadatas iterable longer than texts" ∧ texts.length < ms.length)) := by
  unfold textsToNodes
  rw [truthyIter_of_ne_nil ms hms, truthyIter_of_ne_nil ids hids]
  exact textsToNodesAux_mismatch texts ms ids hwf hmm

/-- Witness for the amended C2: two texts against one metadata mapping and two
ids fail naming the metadatas sequence as the one texts overran. -/
theorem texts_to_nodes_length_mismatch_witness :
    ∃ e, textsToNodes ["ta", "tb"] (some [[]]) (some ["a", "b"]) = .error e ∧
      ((e = "texts iterable longer than metadatas" ∧ 1 < 2)
       ∨ (e = "texts iterable longer than ids" ∧ 2 < 2)
       ∨ (e = "ids iterable longer than texts" ∧ 2 < 2)
       ∨ (e = "metadatas iterable longer than texts" ∧ 2 < 1)) :=
  texts_to_nodes_length_mismatch ["ta", "tb"] [[]] ["a", "b"]
    (by decide) (by decide) (by decide) (by decide)

/-- Counterexample to C2 as stated: with texts strictly longer than a present
but empty metadatas sequence, the conversion does not fail — the empty list is
falsy, so it is treated as absent and one node with empty metadata is
produced. -/
theorem texts_to_nodes_empty_metadatas_no_error :
    textsToNodes ["a"] (some []) none
      = .ok [{ id := none, text := "a", metadata := [], links := [] }] := by
  rfl

/-- If the links key is absent, no entry of the metadata carries it. -/
theorem no_key_of_lookupLinks_none (md : Meta) (h : lookupLinks md = none) :
    ∀ x ∈ md, (x.1 == METADATA_LINKS_KEY) = false := by
  intro x hx
  have hf : md.find? (fun kv => kv.1 == METADATA_LINKS_KEY) = none := by
    cases hfind : md.find? (fun kv => kv.1 == METADATA_LINKS_KEY) with
    | none => rfl
    | some kv => rw [lookupLinks, hfind] at h; simp at h
  have := List.find?_eq_none.mp hf x hx
  simpa using this

/-- Python dict assignment of an absent key appends the pair at the end. -/
theorem setKey_of_lookupLinks_none (md : Meta) (v : MVal)
    (h : lookupLinks md = none) :
    setKey md METADATA_LINKS_KEY v = md ++ [(METADATA_LINKS_KEY, v)] := by
  unfold setKey
  have hany : md.any (fun kv => kv.1 == METADATA_LINKS_KEY) = false := by
    rw [List.any_eq_false]
    intro x hx
    simp [no_key_of_lookupLinks_none md h x hx]
  simp [hany]

/-- Erasing the links key from a mapping that ends in exactly that key erases
just that entry. -/
theorem eraseLinksKey_append_key (md : Meta) (v : MVal) :
    eraseLinksKey (md ++ [(METADATA_LINKS_KEY, v)]) = eraseLinksKey md := by
  simp [eraseLinksKey, List.filter_append]

/-- Erasing the links key from a mapping that does not carry it is the
identity. -/
theorem eraseLinksKey_of_lookupLinks_none (md : Meta) (h : lookupLinks md = none) :
    eraseLinksKey md = md := by
  rw [eraseLinksKey, List.filter_eq_self]
  intro x hx
  have := no_key_of_lookupLinks_none md h x hx
  simpa using this

/-- Looking up the links key after appending it to a mapping that lacked it
finds the appended value. -/
theorem lookupLinks_append_key (md : Meta) (v : MVal) (h : lookupLinks md = none) :
    lookupLinks (md ++ [(METADATA_LINKS_KEY, v)]) = some v := by
  induction md with
  | nil => simp [lookupLinks, List.find?]
  | cons kv rest ih =>
    have hkv : (kv.1 == METADATA_LINKS_KEY) = false :=
      no_key_of_lookupLinks_none (kv :: rest) h kv (List.mem_cons_self kv rest)
    have hrest : lookupLinks rest = none := by
      rw [lookupLinks] at h ⊢
      rw [List.find?] at h
      rw [hkv] at h
      exact h
    simp only [List.cons_append, lookupLinks, List.find?, hkv]
    exact ih hrest

/-- Rebuilding each link field-by-field (`Link(kind=link.kind,
direction=link.direction, tag=link.tag)`) is the identity. -/
theorem linkRebuild_map (ls : List Link) :
    ls.map (fun l =>
      ({ kind := l.kind, direction := l.direction, tag := l.tag } : Link)) = ls := by
  induction ls with
  | nil => rfl
  | cons l ls ih => simp [ih]

/-- The observations C4 compares: id, page content, metadata minus the links
key, and the links carried by the links entry. -/
def docProj (d : Document) : Option String × String × Meta × List Link :=
  (d.id, d.page_content, eraseLinksKey d.metadata, linksOfMeta d.metadata)

/-- C4: for documents whose metadata links value is already structured links in
insertion order (well-formed metadata), `nodes_to_documents` composed with
`_documents_to_nodes` is the identity on id, page content, metadata-minus-links
and links. -/
theorem documents_nodes_roundtrip (docs : List Document)
    (hwf : ∀ d ∈ docs, wfMeta d.metadata = true) :
    ∃ ns, documentsToNodes docs = .ok ns
      ∧ (nodesToDocuments ns).map docProj = docs.map docProj := by
  induction docs with
  | nil => exact ⟨[], rfl, rfl⟩
  | cons d ds ih =>
    have hwfd : wfMeta d.metadata = true := hwf d (List.mem_cons_self d ds)
    obtain ⟨ns, hns, hproj⟩ := ih (fun x hx => hwf x (List.mem_cons_of_mem d hx))
    refine ⟨{ id := d.id, text := d.page_content,
              metadata := eraseLinksKey d.metadata,
              links := linksOfMeta d.metadata } :: ns, ?_, ?_⟩
    · simp only [documentsToNodes, coerceLinks_of_wfMeta d.metadata hwfd, hns]
    · have hnone : lookupLinks (eraseLinksKey d.metadata) = none :=
        lookupLinks_eraseLinksKey d.metadata
      simp only [nodesToDocuments, List.map_cons, hproj, List.cons.injEq, and_true]
      rw [setKey_of_lookupLinks_none _ _ hnone, linkRebuild_map]
      unfold docProj
      simp only [eraseLinksKey_append_key, eraseLinksKey_of_lookupLinks_none _ hnone,
        linksOfMeta, lookupLinks_append_key _ _ hnone]

/-- Witness for C4 at a concrete document with a structured links entry and an
ordinary metadata key. -/
theorem documents_nodes_roundtrip_witness :
    ∃ ns, documentsToNodes
        [{ id := some "d", page_content := "t",
           metadata := [("x", MVal.str "v"), ("links", MVal.linkList [sampleLink])] }]
      = .ok ns
      ∧ (nodesToDocuments ns).map docProj
        = [{ id := some "d", page_content := "t",
             metadata := [("x", MVal.str "v"),
               ("links", MVal.linkList [sampleLink])] }].map docProj :=
  documents_nodes_roundtrip
    [{ id := some "d", page_content := "t",
       metadata := [("x", MVal.str "v"), ("links", MVal.linkList [sampleLink])] }]
    (by decide)
